import Mathlib

/-!
Verification development for the tauri-mistral-chat repository.

The front-end logic (`src/src/components/chat.tsx`, `src/src/App.tsx`) is
embedded directly from the TypeScript source.  The Rust backend (model
registry, artifact scanner, format classifier / session factory, session
cache and chat router exposed as the `discover_models` and `ai_chat`
commands) is not part of the available sources; those components are
modelled from the specification (each such definition carries a
`Modelled from the spec:` doc comment).
-/

/- ===================== Front-end data model (chat.tsx / App.tsx) ==== -/

/-- Embeds the `ModelInfo` interface of `chat.tsx` / `App.tsx`: the model
metadata record returned by the `discover_models` Tauri command. -/
structure ModelInfo where
  id : String
  name : String
  description : String
  model_type : String
  size_estimate : Option String
  is_available : Bool
  repo : Option String
  files : List String
  is_vision : Bool
deriving DecidableEq, Repr

/-- Embeds the parts of a browser `File` object that the front end reads:
`file.name`, `file.type` (MIME type, field `mimeType` here) and
`file.size`. -/
structure ChatFile where
  name : String
  mimeType : String
  size : Nat
deriving DecidableEq, Repr

/-- Prefix test on strings, written over the character lists so that it
evaluates: embeds the JavaScript `String.prototype.startsWith`. -/
def strStartsWith (s p : String) : Bool :=
  p.data.isPrefixOf s.data

/-- Whitespace trim on both ends, written over the character lists so
that it evaluates: embeds the JavaScript `String.prototype.trim`. -/
def strTrim (s : String) : String :=
  ⟨((s.data.dropWhile Char.isWhitespace).reverse.dropWhile Char.isWhitespace).reverse⟩

/-- Embeds `isImageFile` of `chat.tsx`:
`file.type.startsWith("image/")`. -/
def isImageFile (f : ChatFile) : Bool :=
  strStartsWith f.mimeType "image/"

/-- Embeds the hard-coded fallback model identifier of `chat.tsx`
(`const modelId = selectedModelId || "llama-3.2-3b-instruct"`). -/
def fallbackModelId : String := "llama-3.2-3b-instruct"

/-- Embeds `selectedModelId || "llama-3.2-3b-instruct"` of `chat.tsx`
(the empty string is the only falsy value a `useState<string>("")` can
hold here). -/
def effectiveModelId (selectedModelId : String) : String :=
  if selectedModelId == "" then fallbackModelId else selectedModelId

/-- Embeds `availableModels.find((m) => m.id === modelId)` of
`chat.tsx` / `App.tsx`. -/
def findModel (models : List ModelInfo) (modelId : String) : Option ModelInfo :=
  models.find? (fun m => m.id == modelId)

/-- Embeds `selectedModel?.is_vision || false` of `chat.tsx` and the
truthiness test `currentModel?.is_vision` of `App.tsx`. -/
def supportsVision (models : List ModelInfo) (modelId : String) : Bool :=
  match findModel models modelId with
  | some m => m.is_vision
  | none => false

/-- Embeds `selectedModel?.name || modelId` of `chat.tsx` (the name used
inside the vision error message). -/
def displayNameOf (models : List ModelInfo) (modelId : String) : String :=
  match findModel models modelId with
  | some m => if m.name == "" then modelId else m.name
  | none => modelId

/-- The assistant error message appended by `chat.tsx` when an image is
sent to a model whose vision flag is false. -/
def visionUnsupportedMsg (displayName : String) : String :=
  "Error: The selected model \"" ++ displayName ++
    "\" does not support vision/image inputs. Please select a vision-capable model to analyze images."

/-- The assistant error message appended by `chat.tsx` when converting the
image file to base64 fails. -/
def imageConvertFailedMsg (e : String) : String :=
  "Error: Failed to process image file: " ++ e

/-- The assistant error message appended by `chat.tsx` when a non-image
file is uploaded. -/
def nonImageMsg (fileType : String) : String :=
  "Error: Only image files are supported for vision models. You uploaded: " ++ fileType

/-- Observable effects of one run of the overridden `handler.append` of
`chat.tsx`, up to the point where the Tauri backend is (or is not)
invoked: whether `invoke("ai_chat", ...)` was called (and with which
`message`, `modelId`, `imageData` arguments), and which assistant error
messages were appended locally before returning. -/
structure AppendEffects where
  invokedAiChat : Option (String × String × Option String)
  assistantAppended : List String
deriving DecidableEq, Repr

/-- Embeds the overridden `handler.append` of `chat.tsx` (the part after
the original append of the user message).  `convert` stands for
`convertFileToBase64`, which either resolves with the base64 string or
rejects with an error. -/
def appendHandler (models : List ModelInfo) (selectedModelId : String)
    (convert : ChatFile → Except String String)
    (role content : String) (file : Option ChatFile) : AppendEffects :=
  if role != "user" then ⟨none, []⟩
  else
    let modelId := effectiveModelId selectedModelId
    match file with
    | some f =>
      if isImageFile f then
        if supportsVision models modelId then
          match convert f with
          | Except.ok b64 => ⟨some (content, modelId, some b64), []⟩
          | Except.error e => ⟨none, [imageConvertFailedMsg e]⟩
        else ⟨none, [visionUnsupportedMsg (displayNameOf models modelId)]⟩
      else ⟨none, [nonImageMsg f.mimeType]⟩
    | none => ⟨some (content, modelId, none), []⟩

/-- Observable effects of one run of `sendAiMessage` of `App.tsx`, up to
the point where the Tauri backend is (or is not) invoked: the
`aiResponse` string set locally before any backend call, and whether
`invoke("ai_chat", ...)` was called (with which arguments). -/
structure SendEffects where
  aiResponse : Option String
  invokedAiChat : Option (String × String × Option String)
deriving DecidableEq, Repr

/-- Embeds `sendAiMessage` of `App.tsx`: guard on empty trimmed message or
no selected model, the vision-requires-image guard, optional base64
conversion (only when the current model is vision-capable), then the
`ai_chat` invocation. -/
def sendAiMessage (models : List ModelInfo) (selectedModel aiMessage : String)
    (selectedImage : Option ChatFile)
    (convert : ChatFile → Except String String) : SendEffects :=
  if strTrim aiMessage == "" || selectedModel == "" then ⟨none, none⟩
  else if supportsVision models selectedModel && selectedImage.isNone then
    ⟨some "Vision models require an image to be uploaded.", none⟩
  else
    match selectedImage with
    | some img =>
      if supportsVision models selectedModel then
        match convert img with
        | Except.ok b64 => ⟨none, some (aiMessage, selectedModel, some b64)⟩
        | Except.error e => ⟨some ("Error: " ++ e), none⟩
      else ⟨none, some (aiMessage, selectedModel, none)⟩
    | none => ⟨none, some (aiMessage, selectedModel, none)⟩

/- Concrete inputs used by witnesses and counterexamples. -/

/-- A concrete image file (MIME type starts with "image/"). -/
def pngFile : ChatFile := ⟨"photo.png", "image/png", 2048⟩

/-- A concrete non-image file. -/
def pdfFile : ChatFile := ⟨"doc.pdf", "application/pdf", 4096⟩

/-- A base64 conversion that always succeeds. -/
def okConvert : ChatFile → Except String String := fun _ => Except.ok "QUJD"

/- ===================== Backend data model (modelled from the spec) == -/

/-- Modelled from the spec: the packaging-kind enumeration of a
`ModelDescriptor` (spec section 3); the Rust backend that declares it is
not among the available sources. -/
inductive PackagingKind where
  | localSelfContainedQuantized
  | localMultiFileQuantizedText
  | localMultiFileQuantizedVision
  | localAdaptiveVision
  | remoteHosted
deriving DecidableEq, Repr

/-- Modelled from the spec: the immutable `ModelDescriptor` of the Model
Registry (spec section 3); the Rust backend that declares it is not
among the available sources. -/
structure ModelDescriptor where
  identifier : String
  displayName : String
  description : String
  kind : PackagingKind
  sizeEstimate : Option String
  repo : Option String
  requiredFiles : List String
  isVision : Bool
  chatTemplate : Option String
deriving DecidableEq, Repr

/-- The local artifact store visible to the Artifact Scanner: maps a
relative file path to its size when the file exists. -/
abbrev FileSystem := String → Option Nat

/-- Modelled from the spec: `AvailabilityStatus`, a per-descriptor
availability boolean plus the list of missing required files (spec
section 3). -/
structure AvailabilityStatus where
  isAvailable : Bool
  missingFiles : List String
deriving DecidableEq, Repr

/-- Modelled from the spec: a required file is usable when it exists and
is not zero-length ("A missing or zero-length required file marks the
descriptor unavailable", spec section 6). -/
def fileUsable (fs : FileSystem) (p : String) : Bool :=
  match fs p with
  | none => false
  | some sz => sz != 0

/-- Modelled from the spec: the Artifact Scanner's `scan` (spec section
4.2): checks every required file of the descriptor against the local
artifact store; remote-hosted descriptors are available when a
credential is configured or a complete local copy exists. -/
def scan (fs : FileSystem) (hasCredential : Bool) (d : ModelDescriptor) :
    AvailabilityStatus :=
  let missing := d.requiredFiles.filter (fun q => !fileUsable fs q)
  match d.kind with
  | PackagingKind.remoteHosted => ⟨hasCredential || missing.isEmpty, missing⟩
  | _ => ⟨missing.isEmpty, missing⟩

/-- Modelled from the spec: one entry of the `discover_models` result
(spec section 6); field names follow the front end's `ModelInfo`
interface, which mirrors the serialized Rust struct. -/
structure ModelEntry where
  id : String
  name : String
  description : String
  model_type : PackagingKind
  size_estimate : Option String
  is_available : Bool
  repo : Option String
  files : List String
  is_vision : Bool
deriving DecidableEq, Repr

/-- Modelled from the spec: combines one registry descriptor with its
fresh scan result into a `discover_models` entry. -/
def entryOf (d : ModelDescriptor) (st : AvailabilityStatus) : ModelEntry :=
  ⟨d.identifier, d.displayName, d.description, d.kind, d.sizeEstimate,
    st.isAvailable, d.repo, d.requiredFiles, d.isVision⟩

/-- Modelled from the spec: the `discover_models` entry point (spec
section 6): the Registry listing (an ordered, I/O-free constant sequence
`reg`) combined with a fresh Scanner pass over every descriptor; a
descriptor that fails its scan is reported unavailable, never aborting
the call. -/
def discover_models (reg : List ModelDescriptor) (fs : FileSystem)
    (hasCredential : Bool) : List ModelEntry :=
  reg.map (fun d => entryOf d (scan fs hasCredential d))

/- ===================== Classifier / Session Factory ==== -/

/-- Modelled from the spec: the configured default quantization policy of
the Session Factory (spec sections 4.3 and 9: a tunable configuration
decision, not a "best available" heuristic). -/
structure QuantPolicy where
  defaultLevel : String
deriving DecidableEq, Repr

/-- Modelled from the spec: `SessionConfig` (spec section 3): packaging
kind, resolved file paths, chosen quantization level, chat-template
path and vision flag. -/
structure SessionConfig where
  kind : PackagingKind
  resolvedFiles : List String
  quantLevel : Option String
  chatTemplate : Option String
  isVision : Bool
deriving DecidableEq, Repr

/-- Modelled from the spec: the Format Classifier's `classify` (spec
section 4.3), dispatching on the packaging kind: baked-in quantization
for self-contained files, the configured default level for pre-quantized
multi-file sets, the on-the-fly policy level for adaptive vision, and
engine-deferred resolution for remote-hosted descriptors. -/
def classify (policy : QuantPolicy) (d : ModelDescriptor) : SessionConfig :=
  match d.kind with
  | PackagingKind.localSelfContainedQuantized =>
      ⟨d.kind, d.requiredFiles, none, d.chatTemplate, d.isVision⟩
  | PackagingKind.localMultiFileQuantizedText =>
      ⟨d.kind, d.requiredFiles, some policy.defaultLevel, d.chatTemplate, d.isVision⟩
  | PackagingKind.localMultiFileQuantizedVision =>
      ⟨d.kind, d.requiredFiles, some policy.defaultLevel, d.chatTemplate, d.isVision⟩
  | PackagingKind.localAdaptiveVision =>
      ⟨d.kind, d.requiredFiles, some policy.defaultLevel, d.chatTemplate, d.isVision⟩
  | PackagingKind.remoteHosted =>
      ⟨d.kind, [], none, d.chatTemplate, d.isVision⟩

/- ===================== Chat Router (modelled from the spec) ==== -/

/-- Modelled from the spec: the error taxonomy of section 7. -/
inductive ChatError where
  | unknownModel
  | incompleteArtifactSet
  | unsupportedModality
  | missingRequiredInput
  | imageDecodeError
  | credentialMissing
  | sessionBuildError (cause : String)
  | inferenceEngineError (cause : String)
  | cancelled
deriving DecidableEq, Repr

/-- Modelled from the spec: the configurable policy for a vision-capable
descriptor with no image attached (spec sections 4.5 step 3 and 9). -/
inductive VisionPolicy where
  | imageRequired
  | imageOptional
deriving DecidableEq, Repr

/-- Whether the configured policy makes an image mandatory for
vision-capable descriptors. -/
def requiresImage : VisionPolicy → Bool
  | VisionPolicy.imageRequired => true
  | VisionPolicy.imageOptional => false

/-- Result of one Chat Router `route` call: the generated text or a
structured error, plus whether the Session Cache's `acquire` was
invoked during the call. -/
structure RouteResult where
  result : Except ChatError String
  acquireInvoked : Bool
deriving Repr

/-- Modelled from the spec: steps 5 to 7 of the Chat Router (spec section
4.5): acquire the session from the Session Cache, invoke it, wrap
engine-level failures as `InferenceEngineError` with the cause
preserved, and return the generated text verbatim. -/
def invokeSession {Session : Type} (acquire : String → Except ChatError Session)
    (generate : Session → String → Option (List Nat) → Except String String)
    (mid text : String) (pix : Option (List Nat)) : RouteResult :=
  match acquire mid with
  | Except.error e => ⟨Except.error e, true⟩
  | Except.ok sess =>
    match generate sess text pix with
    | Except.error cause => ⟨Except.error (ChatError.inferenceEngineError cause), true⟩
    | Except.ok out => ⟨Except.ok out, true⟩

/-- Modelled from the spec: the Chat Router's `route` (spec section 4.5):
resolve the descriptor, check the vision capability against the attached
image before touching the Session Cache, decode the image, then acquire
and invoke the session. -/
def route {Session : Type} (reg : List ModelDescriptor) (policy : VisionPolicy)
    (decode : String → Option (List Nat))
    (acquire : String → Except ChatError Session)
    (generate : Session → String → Option (List Nat) → Except String String)
    (mid text : String) (imageData : Option String) : RouteResult :=
  match reg.find? (fun d0 => d0.identifier == mid) with
  | none => ⟨Except.error ChatError.unknownModel, false⟩
  | some d =>
    match imageData with
    | some img =>
      if d.isVision then
        match decode img with
        | none => ⟨Except.error ChatError.imageDecodeError, false⟩
        | some pix => invokeSession acquire generate d.identifier text (some pix)
      else ⟨Except.error ChatError.unsupportedModality, false⟩
    | none =>
      if d.isVision && requiresImage policy then
        ⟨Except.error ChatError.missingRequiredInput, false⟩
      else invokeSession acquire generate d.identifier text none

/-- `acquire` is marked invoked on every path through `invokeSession`. -/
theorem invokeSession_acquireInvoked {Session : Type}
    (acquire : String → Except ChatError Session)
    (generate : Session → String → Option (List Nat) → Except String String)
    (mid text : String) (pix : Option (List Nat)) :
    (invokeSession acquire generate mid text pix).acquireInvoked = true := by
  unfold invokeSession
  cases h : acquire mid with
  | error e => rfl
  | ok sess => cases hg : generate sess text pix <;> simp [hg]

/- ===================== Theorems: C9, C10 ==== -/

/-- C9 counterexample: the claim says that for every user message sent
while no model is selected the `ai_chat` command is still invoked; but a
user message carrying an image attachment while `selectedModelId` is the
empty string and the discovered model list is empty hits the
vision-unsupported branch (the fallback identifier is not in the list,
so `modelSupportsVision` is false) and `ai_chat` is never invoked. -/
theorem c9_counterexample :
    (appendHandler [] "" okConvert "user" "hello" (some pngFile)).invokedAiChat = none ∧
    (appendHandler [] "" okConvert "user" "hello" (some pngFile)).assistantAppended =
      [visionUnsupportedMsg fallbackModelId] := by
  constructor <;> rfl

/-- C9 (amended): in the ChatSection append handler, for every user
message sent with no attached file while no model is selected
(`selectedModelId` is the empty string), the `ai_chat` command is still
invoked, using the hard-coded fallback identifier
"llama-3.2-3b-instruct" regardless of whether that identifier appears
in, or is marked available by, the discovered model list. -/
theorem c9_fallback_model (models : List ModelInfo)
    (convert : ChatFile → Except String String) (content : String) :
    appendHandler models "" convert "user" content none =
      ⟨some (content, "llama-3.2-3b-instruct", none), []⟩ := rfl

/-- C10: for every user message with an attached file whose MIME type
does not start with "image/", the append handler never invokes
`ai_chat`: it appends exactly one assistant error message naming the
uploaded MIME type and returns. -/
theorem c10_non_image_never_forwarded (models : List ModelInfo)
    (selectedModelId : String) (convert : ChatFile → Except String String)
    (content : String) (f : ChatFile) (h : isImageFile f = false) :
    appendHandler models selectedModelId convert "user" content (some f) =
      ⟨none, [nonImageMsg f.mimeType]⟩ := by
  simp [appendHandler, h]

/-- C10 witness: evaluating the theorem at a concrete PDF upload. -/
theorem c10_witness :
    isImageFile pdfFile = false ∧
    appendHandler [] "m" okConvert "user" "hi" (some pdfFile) =
      ⟨none, [nonImageMsg "application/pdf"]⟩ :=
  ⟨rfl, c10_non_image_never_forwarded [] "m" okConvert "hi" pdfFile rfl⟩

/- ===================== Concrete backend inputs for witnesses ==== -/

/-- A concrete local multi-file text descriptor (the spec's scenario
`local-text-a`). -/
def descTextA : ModelDescriptor :=
  ⟨"local-text-a", "Text A", "a local multi-file text model",
    PackagingKind.localMultiFileQuantizedText, some "2GB", none,
    ["tok.json", "cfg.json", "weights.bin"], false, none⟩

/-- A concrete local multi-file vision descriptor. -/
def descVisionB : ModelDescriptor :=
  ⟨"local-vision-b", "Vision B", "a local vision model",
    PackagingKind.localMultiFileQuantizedVision, none, none,
    ["tok.json", "preproc.json", "weights.bin"], true, none⟩

/-- A local artifact store holding only `tok.json` and `cfg.json` (the
spec's scenario: `weights.bin` is missing). -/
def fsPartial : FileSystem :=
  fun p => if p == "tok.json" || p == "cfg.json" then some 4 else none

/-- A discovered vision-capable model as the front end sees it. -/
def visionModelInfo : ModelInfo :=
  ⟨"local-vision-b", "Vision B", "a local vision model",
    "local-matformer-vision", none, true, none, [], true⟩

/- ===================== Theorems: C2, C3, C4, C7, C8 ==== -/

/-- C2: a chat request carrying an image whose target descriptor has its
vision flag false fails with `UnsupportedModality` and the Session
Cache's `acquire` is never invoked; and in the shipped front end
(`chat.tsx`), an image attachment while the effective model does not
support vision appends an error message and never invokes the `ai_chat`
command. -/
theorem c2_unsupported_modality {Session : Type}
    (reg : List ModelDescriptor) (policy : VisionPolicy)
    (decode : String → Option (List Nat))
    (acquire : String → Except ChatError Session)
    (generate : Session → String → Option (List Nat) → Except String String)
    (mid text img : String) (d : ModelDescriptor)
    (models : List ModelInfo) (sel content : String)
    (convert : ChatFile → Except String String) (f : ChatFile)
    (hfind : reg.find? (fun d0 => d0.identifier == mid) = some d)
    (hvis : d.isVision = false)
    (himg : isImageFile f = true)
    (hnovis : supportsVision models (effectiveModelId sel) = false) :
    route reg policy decode acquire generate mid text (some img) =
      ⟨Except.error ChatError.unsupportedModality, false⟩ ∧
    appendHandler models sel convert "user" content (some f) =
      ⟨none, [visionUnsupportedMsg (displayNameOf models (effectiveModelId sel))]⟩ := by
  constructor
  · simp [route, hfind, hvis]
  · simp [appendHandler, himg, hnovis]

/-- C2 witness: evaluating the theorem at a concrete non-vision
descriptor with an attached image, and at the front end with an image
upload while no discovered model matches the effective identifier. -/
theorem c2_witness :
    route [descTextA] VisionPolicy.imageOptional (fun _ => none)
        (fun _ => (Except.error ChatError.cancelled : Except ChatError Unit))
        (fun _ _ _ => Except.ok "ok") "local-text-a" "describe this image"
        (some "IMG") =
      ⟨Except.error ChatError.unsupportedModality, false⟩ ∧
    appendHandler [] "" okConvert "user" "describe" (some pngFile) =
      ⟨none, [visionUnsupportedMsg (displayNameOf [] (effectiveModelId ""))]⟩ :=
  c2_unsupported_modality [descTextA] VisionPolicy.imageOptional (fun _ => none)
    (fun _ => (Except.error ChatError.cancelled : Except ChatError Unit))
    (fun _ _ _ => Except.ok "ok") "local-text-a" "describe this image" "IMG"
    descTextA [] "" "describe" okConvert pngFile rfl rfl rfl rfl

/-- Executable lexicographic strict order on character lists, used to
state the Registry contract's "stable order (by identifier)". -/
def charListLt : List Char → List Char → Bool
  | [], [] => false
  | [], _ :: _ => true
  | _ :: _, [] => false
  | a :: as, b :: bs =>
      if a < b then true else if b < a then false else charListLt as bs

/-- Executable lexicographic strict order on strings. -/
def strLt (a b : String) : Bool := charListLt a.data b.data

/-- The lexicographic order is irreflexive. -/
theorem charListLt_irrefl (l : List Char) : charListLt l l = false := by
  induction l with
  | nil => rfl
  | cons a as ih => simp [charListLt, lt_irrefl, ih]

/-- Strictly ordered strings are distinct. -/
theorem strLt_ne {a b : String} (h : strLt a b = true) : a ≠ b := by
  intro heq
  subst heq
  rw [strLt, charListLt_irrefl] at h
  exact Bool.false_ne_true h

/-- C3: `discover_models` returns exactly one entry per registry
descriptor identifier, in the registry's stable identifier order, on
every call; under the Registry contract (list sorted by identifier) the
returned identifiers are strictly sorted and duplicate-free. -/
theorem c3_discover_models_stable (reg : List ModelDescriptor) (fs : FileSystem)
    (cred : Bool)
    (hsorted : List.Pairwise (fun a b => strLt a.identifier b.identifier = true) reg) :
    (discover_models reg fs cred).map ModelEntry.id
      = reg.map ModelDescriptor.identifier ∧
    List.Pairwise (fun a b : String => strLt a b = true)
      ((discover_models reg fs cred).map ModelEntry.id) ∧
    ((discover_models reg fs cred).map ModelEntry.id).Nodup := by
  have hmap : (discover_models reg fs cred).map ModelEntry.id
      = reg.map ModelDescriptor.identifier := by
    simp [discover_models, List.map_map]
    intro a _
    rfl
  refine ⟨hmap, ?_, ?_⟩
  · rw [hmap, List.pairwise_map]
    exact hsorted
  · rw [hmap]
    exact List.pairwise_map.mpr (hsorted.imp fun h => strLt_ne h)

/-- C3 witness: evaluating the theorem at a concrete two-descriptor
registry sorted by identifier. -/
theorem c3_witness :
    (discover_models [descTextA, descVisionB] fsPartial true).map ModelEntry.id
      = [descTextA, descVisionB].map ModelDescriptor.identifier ∧
    List.Pairwise (fun a b : String => strLt a b = true)
      ((discover_models [descTextA, descVisionB] fsPartial true).map ModelEntry.id) ∧
    ((discover_models [descTextA, descVisionB] fsPartial true).map ModelEntry.id).Nodup :=
  c3_discover_models_stable [descTextA, descVisionB] fsPartial true (by decide)

/-- C4: for a local descriptor with a required file missing or
zero-length at scan time, `discover_models` still returns an entry for
it (one per descriptor, nothing aborts), that entry is reported
unavailable, and the scan names the specific missing file. -/
theorem c4_missing_file_reported (reg : List ModelDescriptor) (fs : FileSystem)
    (cred : Bool) (d : ModelDescriptor) (p : String)
    (hd : d ∈ reg) (hlocal : d.kind ≠ PackagingKind.remoteHosted)
    (hp : p ∈ d.requiredFiles) (hmiss : fileUsable fs p = false) :
    entryOf d (scan fs cred d) ∈ discover_models reg fs cred ∧
    (entryOf d (scan fs cred d)).is_available = false ∧
    p ∈ (scan fs cred d).missingFiles ∧
    (discover_models reg fs cred).length = reg.length := by
  have hpm : p ∈ d.requiredFiles.filter (fun q => !fileUsable fs q) :=
    List.mem_filter.mpr ⟨hp, by simp [hmiss]⟩
  have hempty : (d.requiredFiles.filter (fun q => !fileUsable fs q)).isEmpty = false := by
    cases hcase : d.requiredFiles.filter (fun q => !fileUsable fs q) with
    | nil => rw [hcase] at hpm; exact absurd hpm (List.not_mem_nil p)
    | cons a l => rfl
  refine ⟨?_, ?_, ?_, ?_⟩
  · exact List.mem_map_of_mem _ hd
  · cases hk : d.kind <;>
      first
        | exact absurd hk hlocal
        | simp [entryOf, scan, hk, hempty]
  · cases hk : d.kind <;> simpa [scan, hk] using hpm
  · simp [discover_models]

/-- C4 witness: evaluating the theorem at the spec's scenario: registry
entry `local-text-a` with `weights.bin` absent from the artifact
store. -/
theorem c4_witness :
    entryOf descTextA (scan fsPartial true descTextA)
        ∈ discover_models [descTextA] fsPartial true ∧
    (entryOf descTextA (scan fsPartial true descTextA)).is_available = false ∧
    "weights.bin" ∈ (scan fsPartial true descTextA).missingFiles ∧
    (discover_models [descTextA] fsPartial true).length = [descTextA].length :=
  c4_missing_file_reported [descTextA] fsPartial true descTextA "weights.bin"
    (by decide) (by decide) (by decide) (by decide)

/-- C7: building a `SessionConfig` twice from the same `ModelDescriptor`
under the same configured quantization policy produces value-equal
configs, and in particular the same resolved quantization level; the
level can only change when the configuration changes. -/
theorem c7_classify_deterministic (p1 p2 : QuantPolicy) (d : ModelDescriptor)
    (hconfig : p1 = p2) :
    classify p1 d = classify p2 d ∧
    (classify p1 d).quantLevel = (classify p2 d).quantLevel := by
  subst hconfig
  exact ⟨rfl, rfl⟩

/-- C7 witness: evaluating the theorem at a concrete descriptor and
policy. -/
theorem c7_witness :
    classify ⟨"Q5K"⟩ descTextA = classify ⟨"Q5K"⟩ descTextA ∧
    (classify ⟨"Q5K"⟩ descTextA).quantLevel = (classify ⟨"Q5K"⟩ descTextA).quantLevel :=
  c7_classify_deterministic ⟨"Q5K"⟩ ⟨"Q5K"⟩ descTextA rfl

/-- C8: a chat turn targeting a vision-capable descriptor with no image
follows the configured policy (`MissingRequiredInput` under
image-required, proceed text-only — the cache is acquired — under
image-optional); and the shipped `App.tsx` caller enforces
image-required: `sendAiMessage` sets the fixed error response
"Vision models require an image to be uploaded." and never invokes
`ai_chat`. -/
theorem c8_vision_no_image_policy {Session : Type}
    (models : List ModelInfo) (sel msg : String)
    (convert : ChatFile → Except String String)
    (reg : List ModelDescriptor)
    (decode : String → Option (List Nat))
    (acquire : String → Except ChatError Session)
    (generate : Session → String → Option (List Nat) → Except String String)
    (mid text : String) (d : ModelDescriptor)
    (hmsg : (strTrim msg == "") = false) (hsel : (sel == "") = false)
    (hvis : supportsVision models sel = true)
    (hfind : reg.find? (fun d0 => d0.identifier == mid) = some d)
    (hdvis : d.isVision = true) :
    sendAiMessage models sel msg none convert =
      ⟨some "Vision models require an image to be uploaded.", none⟩ ∧
    route reg VisionPolicy.imageRequired decode acquire generate mid text none =
      ⟨Except.error ChatError.missingRequiredInput, false⟩ ∧
    (route reg VisionPolicy.imageOptional decode acquire generate mid text
        none).acquireInvoked = true := by
  refine ⟨?_, ?_, ?_⟩
  · simp [sendAiMessage, hmsg, hsel, hvis]
  · simp [route, hfind, hdvis, requiresImage]
  · simp [route, hfind, hdvis, requiresImage, invokeSession_acquireInvoked]

/-- C8 witness: evaluating the theorem at a concrete vision model with no
image, both in the front end and on both router policies. -/
theorem c8_witness :
    sendAiMessage [visionModelInfo] "local-vision-b" "hi" none okConvert =
      ⟨some "Vision models require an image to be uploaded.", none⟩ ∧
    route [descVisionB] VisionPolicy.imageRequired (fun _ => none)
        (fun _ => (Except.error ChatError.cancelled : Except ChatError Unit))
        (fun _ _ _ => Except.ok "ok") "local-vision-b" "hi" none =
      ⟨Except.error ChatError.missingRequiredInput, false⟩ ∧
    (route [descVisionB] VisionPolicy.imageOptional (fun _ => none)
        (fun _ => (Except.error ChatError.cancelled : Except ChatError Unit))
        (fun _ _ _ => Except.ok "ok") "local-vision-b" "hi" none).acquireInvoked
      = true :=
  c8_vision_no_image_policy [visionModelInfo] "local-vision-b" "hi" okConvert
    [descVisionB] (fun _ => none)
    (fun _ => (Except.error ChatError.cancelled : Except ChatError Unit))
    (fun _ _ _ => Except.ok "ok") "local-vision-b" "hi" descVisionB
    (by decide) (by decide) (by decide) rfl rfl

/- ===================== Session Cache (modelled from the spec) ==== -/

/-- Modelled from the spec: the per-slot state of the Session Cache
(spec section 4.4): empty, or an identifier that is loading (recording
the callers suspended on that in-flight load), ready, or failed. -/
inductive Slot where
  | empty
  | loading (id : String) (waiters : List Nat)
  | ready (id : String)
  | failed (id : String)
deriving DecidableEq, Repr

/-- The phase of a slot, forgetting the identifier and waiters. -/
inductive Phase where
  | empty
  | loading
  | ready
  | failed
deriving DecidableEq, Repr

/-- Phase of a slot. -/
def Slot.phase : Slot → Phase
  | Slot.empty => Phase.empty
  | Slot.loading _ _ => Phase.loading
  | Slot.ready _ => Phase.ready
  | Slot.failed _ => Phase.failed

/-- Modelled from the spec: the observable state of the Session Cache
(spec sections 4.4 and 5): the single slot, the number of session
builds started so far, the load outcomes delivered to callers
(caller, identifier, success), and the identifiers whose session
resources are currently resident in memory. -/
structure CacheState where
  slot : Slot
  buildsStarted : Nat
  delivered : List (Nat × String × Bool)
  resident : List String
deriving DecidableEq, Repr

/-- The initial cache state: empty slot, no builds, nothing resident. -/
def initCache : CacheState := ⟨Slot.empty, 0, [], []⟩

/-- Modelled from the spec: the atomic cache events (spec sections 4.4
and 5).  `acquireHit` returns an already-ready session to a caller;
`acquireJoin` suspends a caller on the in-flight load of the same
identifier; `evict` releases the current occupant (also clearing a
failed slot on retry/evict); `beginLoad` installs a fresh in-flight
load, enabled only on an empty slot (eviction must have completed
first); `finishLoad` resolves the in-flight load, delivering the same
outcome to every suspended caller and releasing the transient resources
when the build failed. -/
inductive Event where
  | acquireHit (c : Nat) (id : String)
  | acquireJoin (c : Nat) (id : String)
  | evict
  | beginLoad (c : Nat) (id : String)
  | finishLoad (id : String) (ok : Bool)
deriving DecidableEq, Repr

/-- Modelled from the spec: the guarded atomic step function of the
Session Cache; `none` means the event is not enabled in the state.
All slot mutation goes through these steps, which are atomic with
respect to concurrent callers. -/
def step (s : CacheState) (e : Event) : Option CacheState :=
  match e, s.slot with
  | Event.acquireHit c id, Slot.ready id2 =>
      if id = id2 then some { s with delivered := (c, id2, true) :: s.delivered }
      else none
  | Event.acquireJoin c id, Slot.loading id2 ws =>
      if id = id2 then some { s with slot := Slot.loading id2 (c :: ws) }
      else none
  | Event.evict, Slot.ready id2 =>
      some { s with slot := Slot.empty, resident := s.resident.erase id2 }
  | Event.evict, Slot.failed _ =>
      some { s with slot := Slot.empty }
  | Event.beginLoad c id, Slot.empty =>
      some { s with slot := Slot.loading id [c],
                    buildsStarted := s.buildsStarted + 1,
                    resident := id :: s.resident }
  | Event.finishLoad id ok, Slot.loading id2 ws =>
      if id = id2 then
        some { s with
          slot := if ok then Slot.ready id2 else Slot.failed id2,
          resident := if ok then s.resident else s.resident.erase id2,
          delivered := ws.map (fun c => (c, id2, ok)) ++ s.delivered }
      else none
  | _, _ => none

/-- Runs a sequence of cache events from a state. -/
def run (s : CacheState) : List Event → Option CacheState
  | [] => some s
  | e :: es =>
      match step s e with
      | some s2 => run s2 es
      | none => none

/-- States reachable from the initial cache state. -/
inductive Reachable : CacheState → Prop where
  | init : Reachable initCache
  | next {s s2 : CacheState} {e : Event} :
      Reachable s → step s e = some s2 → Reachable s2

/-- The resource footprint a slot ought to have: the in-flight or ready
identifier, if any. -/
def residentOf : Slot → List String
  | Slot.empty => []
  | Slot.loading id _ => [id]
  | Slot.ready id => [id]
  | Slot.failed _ => []

/-- One step preserves the correspondence between the `resident`
bookkeeping and the slot. -/
theorem step_resident {s s2 : CacheState} {e : Event}
    (hstep : step s e = some s2) (hinv : s.resident = residentOf s.slot) :
    s2.resident = residentOf s2.slot := by
  cases e <;> cases hs : s.slot <;>
    simp [step, hs, Option.ite_none_right_eq_some] at hstep
  case acquireHit.ready c id id2 =>
    obtain ⟨rfl, rfl⟩ := hstep
    simp [residentOf, hinv, hs]
  case acquireJoin.loading c id id2 ws =>
    obtain ⟨rfl, rfl⟩ := hstep
    simp [residentOf, hinv, hs]
  case evict.ready id2 =>
    subst hstep
    simp [residentOf, hinv, hs]
  case evict.failed id2 =>
    subst hstep
    simp [residentOf, hinv, hs]
  case beginLoad.empty c id =>
    subst hstep
    simp [residentOf, hinv, hs]
  case finishLoad.loading id ok id2 ws =>
    obtain ⟨rfl, rfl⟩ := hstep
    cases ok <;> simp [residentOf, hinv, hs]

/-- Reachable states satisfy the resident bookkeeping invariant. -/
theorem reachable_resident {s : CacheState} (h : Reachable s) :
    s.resident = residentOf s.slot := by
  induction h with
  | init => rfl
  | next hr hstep ih => exact step_resident hstep ih

/-- While a load is in flight, no cache step starts another build. -/
theorem step_loading_builds {s s2 : CacheState} {e : Event} {id : String}
    {ws : List Nat} (hload : s.slot = Slot.loading id ws)
    (hstep : step s e = some s2) :
    s2.buildsStarted = s.buildsStarted := by
  cases e <;> simp [step, hload, Option.ite_none_right_eq_some] at hstep
  case acquireJoin c id2 =>
    obtain ⟨rfl, rfl⟩ := hstep
    rfl
  case finishLoad id2 ok =>
    obtain ⟨rfl, rfl⟩ := hstep
    rfl

/-- The phase transitions the spec's slot state machine allows:
empty to loading (begin), loading to ready or failed (resolve), ready
to empty (evict), failed to empty (retry/evict), plus the
phase-preserving hit and join steps. -/
def allowedTransition : Phase → Phase → Bool
  | Phase.empty, Phase.loading => true
  | Phase.loading, Phase.loading => true
  | Phase.loading, Phase.ready => true
  | Phase.loading, Phase.failed => true
  | Phase.ready, Phase.ready => true
  | Phase.ready, Phase.empty => true
  | Phase.failed, Phase.empty => true
  | _, _ => false

/-- Every cache step realizes an allowed slot phase transition. -/
theorem step_allowed {s s2 : CacheState} {e : Event}
    (hstep : step s e = some s2) :
    allowedTransition s.slot.phase s2.slot.phase = true := by
  cases e <;> cases hs : s.slot <;>
    simp [step, hs, Option.ite_none_right_eq_some] at hstep
  case acquireHit.ready c id id2 =>
    obtain ⟨rfl, rfl⟩ := hstep
    simp [Slot.phase, allowedTransition, hs]
  case acquireJoin.loading c id id2 ws =>
    obtain ⟨rfl, rfl⟩ := hstep
    simp [Slot.phase, allowedTransition, hs]
  case evict.ready id2 =>
    subst hstep
    simp [Slot.phase, allowedTransition, hs]
  case evict.failed id2 =>
    subst hstep
    simp [Slot.phase, allowedTransition, hs]
  case beginLoad.empty c id =>
    subst hstep
    simp [Slot.phase, allowedTransition, hs]
  case finishLoad.loading id ok id2 ws =>
    obtain ⟨rfl, rfl⟩ := hstep
    cases ok <;> simp [Slot.phase, allowedTransition, hs]

/-- Number of ready sessions held by the cache (0 or 1 slots). -/
def readyCount (s : CacheState) : Nat :=
  match s.slot with
  | Slot.ready _ => 1
  | _ => 0

/- ===================== Theorems: C1, C5, C6 ==== -/

/-- C1: single-flight loading.  While a load for `id` is in flight no
step starts another build; a caller arriving for the same identifier
joins the waiters of the in-flight load without starting a build;
resolving that load delivers its one outcome to every suspended
caller; and the two-concurrent-callers run from an empty slot performs
exactly one session build with both callers observing the same
outcome. -/
theorem c1_single_flight
    (s : CacheState) (id : String) (ws : List Nat) (w c : Nat) (ok : Bool)
    (e : Event) (s2 s3 s4 : CacheState)
    (s0 : CacheState) (c1 c2 : Nat) (id0 : String) (ok0 : Bool) (s5 : CacheState)
    (hload : s.slot = Slot.loading id ws)
    (hstep : step s e = some s2)
    (hfin : step s (Event.finishLoad id ok) = some s3)
    (hw : w ∈ ws)
    (hjoin : step s (Event.acquireJoin c id) = some s4)
    (hempty : s0.slot = Slot.empty)
    (hrun : run s0 [Event.beginLoad c1 id0, Event.acquireJoin c2 id0,
        Event.finishLoad id0 ok0] = some s5) :
    s2.buildsStarted = s.buildsStarted ∧
    (w, id, ok) ∈ s3.delivered ∧
    s4.slot = Slot.loading id (c :: ws) ∧
    s4.buildsStarted = s.buildsStarted ∧
    s5.buildsStarted = s0.buildsStarted + 1 ∧
    (c1, id0, ok0) ∈ s5.delivered ∧
    (c2, id0, ok0) ∈ s5.delivered := by
  have hbuilds := step_loading_builds hload hstep
  simp [step, hload, Option.ite_none_right_eq_some] at hfin hjoin
  obtain ⟨rfl, rfl⟩ := hfin
  obtain ⟨rfl, rfl⟩ := hjoin
  simp [run, step, hempty, Option.ite_none_right_eq_some] at hrun
  subst hrun
  refine ⟨hbuilds, ?_, rfl, rfl, rfl, ?_, ?_⟩
  · exact List.mem_append_left _ (List.mem_map_of_mem _ hw)
  · simp
  · simp

/-- C1 witness: evaluating the theorem at a concrete loading state with
one waiter and at the concrete two-caller run from the initial state. -/
theorem c1_witness :
    (⟨Slot.loading "m" [5, 7], 3, [], ["m"]⟩ : CacheState).buildsStarted
      = (⟨Slot.loading "m" [7], 3, [], ["m"]⟩ : CacheState).buildsStarted ∧
    (7, "m", true) ∈
      (⟨Slot.ready "m", 3, [(7, "m", true)], ["m"]⟩ : CacheState).delivered ∧
    (⟨Slot.loading "m" [9, 7], 3, [], ["m"]⟩ : CacheState).slot
      = Slot.loading "m" (9 :: [7]) ∧
    (⟨Slot.loading "m" [9, 7], 3, [], ["m"]⟩ : CacheState).buildsStarted
      = (⟨Slot.loading "m" [7], 3, [], ["m"]⟩ : CacheState).buildsStarted ∧
    (⟨Slot.ready "n", 1, [(2, "n", true), (1, "n", true)], ["n"]⟩
        : CacheState).buildsStarted = initCache.buildsStarted + 1 ∧
    (1, "n", true) ∈
      (⟨Slot.ready "n", 1, [(2, "n", true), (1, "n", true)], ["n"]⟩
        : CacheState).delivered ∧
    (2, "n", true) ∈
      (⟨Slot.ready "n", 1, [(2, "n", true), (1, "n", true)], ["n"]⟩
        : CacheState).delivered :=
  c1_single_flight ⟨Slot.loading "m" [7], 3, [], ["m"]⟩ "m" [7] 7 9 true
    (Event.acquireJoin 5 "m")
    ⟨Slot.loading "m" [5, 7], 3, [], ["m"]⟩
    ⟨Slot.ready "m", 3, [(7, "m", true)], ["m"]⟩
    ⟨Slot.loading "m" [9, 7], 3, [], ["m"]⟩
    initCache 1 2 "n" true
    ⟨Slot.ready "n", 1, [(2, "n", true), (1, "n", true)], ["n"]⟩
    rfl (by decide) (by decide) (by decide) (by decide) rfl (by decide)

/-- C5: in every reachable cache state at most one session's resources
are resident and at most one session is ready (single slot); and when
the slot is empty — the only state in which a new load can begin — the
previous occupant's resources have already been released, so eviction
completes before the next load starts. -/
theorem c5_eviction_before_load (s : CacheState) (h : Reachable s) :
    s.resident.length ≤ 1 ∧ readyCount s ≤ 1 ∧
    (s.slot = Slot.empty → s.resident = []) := by
  have hres := reachable_resident h
  refine ⟨?_, ?_, ?_⟩
  · rw [hres]
    cases s.slot <;> simp [residentOf]
  · cases hs : s.slot <;> simp [readyCount, hs]
  · intro hempty
    rw [hres, hempty]
    rfl

/-- C5 witness: evaluating the theorem at the initial (reachable,
empty-slot) state. -/
theorem c5_witness :
    initCache.resident.length ≤ 1 ∧ readyCount initCache ≤ 1 ∧
    initCache.resident = [] :=
  ⟨(c5_eviction_before_load initCache Reachable.init).1,
   (c5_eviction_before_load initCache Reachable.init).2.1,
   (c5_eviction_before_load initCache Reachable.init).2.2 rfl⟩

/-- C6: every cache step follows the slot state machine
`Empty -> Loading -> Ready -> Empty` or `Loading -> Failed -> Empty`:
each realized phase transition is allowed, there is no step from
`Failed` to `Ready`, a failed load leaves the slot `Failed` — never
stuck `Loading` — and every step out of a `Failed` slot empties it. -/
theorem c6_slot_state_machine
    (s s2 t t2 u u2 : CacheState) (e eu : Event) (id : String) (ws : List Nat)
    (hstep : step s e = some s2)
    (hload : t.slot = Slot.loading id ws)
    (hfail : step t (Event.finishLoad id false) = some t2)
    (hfailed : u.slot.phase = Phase.failed)
    (hstepu : step u eu = some u2) :
    allowedTransition s.slot.phase s2.slot.phase = true ∧
    ¬ (s.slot.phase = Phase.failed ∧ s2.slot.phase = Phase.ready) ∧
    t2.slot.phase = Phase.failed ∧
    t2.slot.phase ≠ Phase.loading ∧
    u2.slot.phase = Phase.empty := by
  have hallowed := step_allowed hstep
  refine ⟨hallowed, ?_, ?_, ?_, ?_⟩
  · rintro ⟨h1, h2⟩
    rw [h1, h2] at hallowed
    exact Bool.false_ne_true hallowed
  · simp [step, hload, Option.ite_none_right_eq_some] at hfail
    obtain ⟨rfl, rfl⟩ := hfail
    rfl
  · simp [step, hload, Option.ite_none_right_eq_some] at hfail
    obtain ⟨rfl, rfl⟩ := hfail
    simp [Slot.phase]
  · cases hu : u.slot <;> simp [Slot.phase, hu] at hfailed
    case failed uid =>
      cases eu <;> simp [step, hu, Option.ite_none_right_eq_some] at hstepu
      case evict =>
        subst hstepu
        rfl

/-- C6 witness: evaluating the theorem at concrete steps: an evict from
ready, a failing load resolution, and an evict out of a failed slot. -/
theorem c6_witness :
    allowedTransition (⟨Slot.ready "m", 1, [], ["m"]⟩ : CacheState).slot.phase
        (⟨Slot.empty, 1, [], []⟩ : CacheState).slot.phase = true ∧
    ¬ ((⟨Slot.ready "m", 1, [], ["m"]⟩ : CacheState).slot.phase = Phase.failed ∧
        (⟨Slot.empty, 1, [], []⟩ : CacheState).slot.phase = Phase.ready) ∧
    (⟨Slot.failed "m", 1, [(7, "m", false)], []⟩ : CacheState).slot.phase
      = Phase.failed ∧
    (⟨Slot.failed "m", 1, [(7, "m", false)], []⟩ : CacheState).slot.phase
      ≠ Phase.loading ∧
    (⟨Slot.empty, 1, [(7, "m", false)], []⟩ : CacheState).slot.phase
      = Phase.empty :=
  c6_slot_state_machine
    ⟨Slot.ready "m", 1, [], ["m"]⟩ ⟨Slot.empty, 1, [], []⟩
    ⟨Slot.loading "m" [7], 1, [], ["m"]⟩
    ⟨Slot.failed "m", 1, [(7, "m", false)], []⟩
    ⟨Slot.failed "m", 1, [(7, "m", false)], []⟩
    ⟨Slot.empty, 1, [(7, "m", false)], []⟩
    Event.evict Event.evict "m" [7]
    (by decide) rfl (by decide) rfl (by decide)
